import Mathlib

set_option maxHeartbeats 1000000

/-!
Verification development for the songbot task-lifecycle and delivery engine.

The definitions below are a shallow embedding of the Python source:
  - app/delayed/store.py      (persisted delayed-delivery store)
  - app/delayed/scheduler.py  (boot recovery and delayed scheduling)
  - app/main.py               (provider status classification, polling engine,
                               start_music_generation, incoming-payload
                               classification, admin force-send handler)

Python dicts keyed by strings are modelled as association lists; timers are
modelled as emitted events; external HTTP calls are oracle parameters; an
uncaught Python exception inside a handler is modelled by a Boolean raised
flag returned together with the state reached at the raise point.
-/

/-- Python str.strip considers a character whitespace.  We model the ASCII
whitespace characters, which is what occurs in the payloads this code handles. -/
def isSpaceChar (c : Char) : Bool :=
  c = ' ' || c = '\t' || c = '\n' || c = '\r'

/-- Shallow embedding of Python str.strip(). -/
def pyStrip (s : String) : String :=
  String.mk (((s.toList.dropWhile isSpaceChar).reverse.dropWhile isSpaceChar).reverse)

/-- Shallow embedding of Python str.lower() (per-character lowering). -/
def pyLower (s : String) : String :=
  String.mk (s.toList.map Char.toLower)

/-- Shallow embedding of Python str.startswith(pat). -/
def pyStartsWith (s pat : String) : Bool :=
  pat.toList.isPrefixOf s.toList

/-- Auxiliary for substring containment over character lists. -/
def containsSubAux (pat : List Char) : List Char → Bool
  | [] => pat.isPrefixOf ([] : List Char)
  | c :: rest => pat.isPrefixOf (c :: rest) || containsSubAux pat rest

/-- Shallow embedding of the Python test (pat in s) on strings. -/
def containsSub (s pat : String) : Bool :=
  containsSubAux pat.toList s.toList

/-- Association-list lookup, modelling Python dict.get on string keys. -/
def alookup {α : Type} (l : List (String × α)) (k : String) : Option α :=
  match l.find? (fun p => p.1 == k) with
  | some p => some p.2
  | none => none

/-- Association-list removal, modelling Python dict.pop(k, None). -/
def aerase {α : Type} (l : List (String × α)) (k : String) : List (String × α) :=
  l.filter (fun p => !(p.1 == k))

/-- Association-list insertion, modelling Python dict assignment d[k] = v. -/
def ainsert {α : Type} (l : List (String × α)) (k : String) (v : α) : List (String × α) :=
  aerase l k ++ [(k, v)]

/-- How many pairs of the list carry the given key. -/
def countKey {α : Type} (l : List (String × α)) (k : String) : Nat :=
  (l.filter (fun p => p.1 == k)).length

-- =========================================================
-- Data model
-- =========================================================

/-- One track dict as produced by the provider check functions: the fields the
core logic inspects (title, audio_url, per-clip status).  audio_url none models
a missing/None value; Python truthiness of the url is (some u with u nonempty). -/
structure Track where
  title : String := "Track"
  audio_url : Option String := none
  status : String := ""
deriving DecidableEq, Repr

/-- Python truthiness of track.get("audio_url"). -/
def Track.hasAudio (t : Track) : Bool :=
  match t.audio_url with
  | some u => !(u == "")
  | none => false

/-- One value of USER_STATE: the per-user session dict of main.py.  Fields that
the code reads with .get(key, "") default to the empty string; fields read with
.get(key) (None default) are Options.  The key _autorest is the autorest field. -/
structure Session where
  story : String := ""
  lyrics : String := ""
  suno_prompt : String := ""
  negative : String := ""
  used_model : String := ""
  provider : String := ""
  use_comet_llm : Bool := false
  mv : Option String := none
  last_activity_ts : Option Int := none
  autoping_delay_sec : Option Int := none
  autorest : Nat := 0
deriving DecidableEq, Repr

/-- One value of PENDING_TASKS: the per-task dict registered by
start_music_generation. -/
structure TaskInfo where
  cuid : String
  poll_count : Nat
  provider : String
  restarts : Nat
deriving DecidableEq, Repr

/-- One value of the delayed store: the persisted dict written by
schedule_delayed_send.  send_at_ts = 0 models an unset/None timestamp, matching
the float(entry.get("send_at_ts") or 0) read in the scheduler. -/
structure DelayedEntry where
  cuid : String
  provider : String
  tracks : List Track
  send_at_ts : Int
deriving DecidableEq, Repr

/-- The delayed store map, keyed by task id. -/
abbrev Store := List (String × DelayedEntry)

/-- Contents of delayed_tracks.json as seen by load_delayed_tracks:
missing file, unreadable JSON, valid JSON with a non-dict root,
or a well-formed dict of entries. -/
inductive FileContent where
  | missing
  | corruptJson
  | nonDictRoot
  | dict (entries : Store)
deriving DecidableEq, Repr

/-- The two module-level names that can reference a delayed-tracks dict:
scheduler.py's DELAYED_TRACKS (bound by the from-import at scheduler.py:6-11)
and store.py's DELAYED_TRACKS global.  The fields hold the contents of the
object each name references; aliased records whether both names still
reference the same object (in which case the two contents coincide). -/
structure DelayedDicts where
  sched : Store
  store : Store
  aliased : Bool
deriving DecidableEq, Repr

/-- At process start store.py binds DELAYED_TRACKS to a fresh empty dict and
scheduler.py's from-import makes its own name an alias of that same object. -/
def delayedDictsInit : DelayedDicts :=
  { sched := [], store := [], aliased := true }

/-- store.py load_delayed_tracks, run once at scheduler import.  Every branch
catches, so the loader is total.  A dict root is loaded with clear()/update()
on the object the store global references (mutation in place, so an intact
alias sees the same contents); FileNotFoundError, an unreadable file, and a
non-dict root instead rebind the store module's global to a fresh empty dict
(store.py:31, 34, 37), splitting it from the scheduler module's alias, which
keeps referencing the old object. -/
def load_delayed_tracks (f : FileContent) (d : DelayedDicts) : DelayedDicts :=
  match f with
  | FileContent.dict m =>
    { d with store := m, sched := if d.aliased then m else d.sched }
  | FileContent.missing => { d with store := [], aliased := false }
  | FileContent.corruptJson => { d with store := [], aliased := false }
  | FileContent.nonDictRoot => { d with store := [], aliased := false }

/-- store.py save_delayed_tracks: atomic-replace write of the current map. -/
def save_delayed_tracks (st : Store) : FileContent :=
  FileContent.dict st

-- =========================================================
-- Boot recovery (app/delayed/scheduler.py)
-- =========================================================

/-- Negation of the drop test in restore_delayed_sends_on_boot:
(not cuid or not provider or not tracks) drops the entry. -/
def entryValid (e : DelayedEntry) : Bool :=
  !(e.cuid == "") && !(e.provider == "") && !e.tracks.isEmpty

/-- The immediate-send test in restore_delayed_sends_on_boot:
(not send_at_ts or send_at_ts <= now). -/
def entryPast (now : Int) (e : DelayedEntry) : Bool :=
  e.send_at_ts == 0 || decide (e.send_at_ts ≤ now)

/-- An entry survives boot recovery in the store exactly when it is valid and
its timestamp is still in the future. -/
def bootKept (now : Int) (p : String × DelayedEntry) : Bool :=
  entryValid p.2 && !entryPast now p.2

/-- Result of running boot recovery: the surviving store and file, the entries
delivered immediately, the timers armed (task id with remaining delay), and the
malformed entries dropped. -/
structure BootOut where
  store : Store
  file : FileContent
  delivered : List (String × DelayedEntry)
  timers : List (String × Int)
  dropped : List String
deriving DecidableEq, Repr

/-- The per-entry loop body of restore_delayed_sends_on_boot, recursing over the
items snapshot while mutating the store and re-persisting after each removal.
A send failure is caught in the source (try/except) and still removes the
entry; delivery by the messaging collaborator is modelled as succeeding. -/
def restore_go (now : Int) : List (String × DelayedEntry) → Store → FileContent → BootOut
  | [], st, f => ⟨st, f, [], [], []⟩
  | (tid, e) :: rest, st, f =>
    if !entryValid e then
      let st2 := aerase st tid
      let r := restore_go now rest st2 (save_delayed_tracks st2)
      { r with dropped := tid :: r.dropped }
    else if entryPast now e then
      let st2 := aerase st tid
      let r := restore_go now rest st2 (save_delayed_tracks st2)
      { r with delivered := (tid, e) :: r.delivered }
    else
      let r := restore_go now rest st f
      { r with timers := (tid, max 0 (e.send_at_ts - now)) :: r.timers }

/-- scheduler.py restore_delayed_sends_on_boot: snapshots the items under the
lock, then runs the recovery loop. -/
def restore_delayed_sends_on_boot (now : Int) (st : Store) (f : FileContent) : BootOut :=
  restore_go now st st f

/-- The _do_send closure armed by boot recovery for a future entry: pop the
entry (persisting the removal), and only if it is still present with nonempty
tracks, send them.  Returns the new store, file, and the delivery performed
(if any) as (cuid, provider, task id, tracks). -/
def boot_do_send (task_id cuid provider : String) (st : Store) (_f : FileContent) :
    Store × FileContent × Option (String × String × String × List Track) :=
  let entry2 := alookup st task_id
  let st2 := aerase st task_id
  let f2 := save_delayed_tracks st2
  match entry2 with
  | none => (st2, f2, none)
  | some e =>
    if e.tracks.isEmpty then (st2, f2, none)
    else (st2, f2, some (cuid, provider, task_id, e.tracks))

-- =========================================================
-- Application state and events
-- =========================================================

/-- The kinds of user-visible notices the embedded code paths send; each
constructor stands for one fixed message text of the source. -/
inductive MsgKind where
  | noStory
  | alreadyGeneratingPending
  | alreadyGeneratingLock
  | restartPollExhausted
  | abandonPollExhausted
  | emptyTracks
  | restartProviderFailed
  | abandonProviderFailed
  | genericFailure
  | submitFailedRetry
  | waitingMusic
deriving DecidableEq, Repr

/-- Observable actions of the embedded code: messages sent, tracks delivered,
timers armed, music submissions (with the payload actually passed to the
provider), and LLM text-generation calls. -/
inductive Event where
  | sentMsg (cuid : String) (kind : MsgKind)
  | sentTracks (cuid : String) (provider : String) (task_id : String) (tracks : List Track)
  | armPollTimer (task_id : String) (interval : Int)
  | armRetryTimer (cuid : String) (delay : Int)
  | armDelayedTimer (task_id : String) (delta : Int)
  | submitMusic (cuid : String) (provider : String) (lyrics : String)
      (style : String) (negative : String) (mv : Option String)
  | llmGenerate (cuid : String)
deriving DecidableEq, Repr

/-- The mutable module-level state of the process.  mainDelayed is the
module-level DELAYED_TRACKS dict defined in main.py (line 98), which shadows
the store module's dict imported on line 12; delayed holds the contents seen
through scheduler.py's alias and through store.py's global (with their
aliasing status), and storeFile is the persisted delayed_tracks.json. -/
structure AppState where
  userState : List (String × Session)
  pendingTasks : List (String × TaskInfo)
  currentlyGenerating : List String
  delayed : DelayedDicts
  storeFile : FileContent
  mainDelayed : Store
deriving DecidableEq, Repr

/-- Result values of start_music_generation. -/
inductive GenResult where
  | ok (task_id : String)
  | noState
  | noLyrics
  | alreadyGenerating (task_id : String)
  | alreadyGeneratingLock
  | submitFailed
deriving DecidableEq, Repr

def COMET_POLL_INTERVAL_SEC : Int := 10
def FOXAI_POLL_INTERVAL_SEC : Int := 10
def COMET_MAX_POLLS : Nat := 36
def FOXAI_MAX_POLLS : Nat := 36
def COMET_MODEL_VERSION : String := "chirp-crow"

/-- provider_name in ("comet", "foxai"). -/
def validProvider (p : String) : Bool :=
  p == "comet" || p == "foxai"

/-- The finally-clause of start_music_generation: the guard is released on
every exit path unless the forced path (which never acquired it) was taken. -/
def releaseIfNotForce (force : Bool) (cuid : String) (s : AppState) : AppState :=
  if force then s
  else { s with currentlyGenerating := s.currentlyGenerating.filter (fun c => !(c == cuid)) }

/-- Python (x or default) for the mv field: None or empty string falls back. -/
def orDefaultStr (x : Option String) (d : String) : String :=
  match x with
  | some v => if v == "" then d else v
  | none => d

/-- main.py start_music_generation.  useComet is the USE_COMET config flag;
submitRes is the oracle for the (up to three) provider submission attempts:
some task_id when an attempt returned ok, none when all three failed. -/
def start_music_generation (useComet : Bool) (submitRes : Option String)
    (cuid : String) (force : Bool) (s : AppState) : AppState × List Event × GenResult :=
  match alookup s.userState cuid with
  | none => (s, [Event.sentMsg cuid MsgKind.noStory], GenResult.noState)
  | some st0 =>
    let provider_name := if validProvider st0.provider then st0.provider
                         else (if useComet then "comet" else "foxai")
    let st : Session := { st0 with provider := provider_name }
    let s1 : AppState :=
      if validProvider st0.provider then s
      else { s with userState := ainsert s.userState cuid st }
    let poll_interval := if provider_name == "comet" then COMET_POLL_INTERVAL_SEC
                         else FOXAI_POLL_INTERVAL_SEC
    let afterGuards : AppState → AppState × List Event × GenResult := fun s2 =>
      let lyrics_text := pyStrip st.lyrics
      let style_prompt := pyStrip st.suno_prompt
      let negative_text := pyStrip st.negative
      if lyrics_text == "" then
        (releaseIfNotForce force cuid s2, [Event.sentMsg cuid MsgKind.noStory], GenResult.noLyrics)
      else
        let comet_mv := orDefaultStr st.mv COMET_MODEL_VERSION
        match submitRes with
        | none =>
          (releaseIfNotForce force cuid s2,
           [Event.sentMsg cuid MsgKind.submitFailedRetry, Event.armRetryTimer cuid 30],
           GenResult.submitFailed)
        | some task_id =>
          let evs := [Event.submitMusic cuid provider_name lyrics_text style_prompt
                        negative_text (if provider_name == "comet" then some comet_mv else none),
                      Event.sentMsg cuid MsgKind.waitingMusic]
          if task_id == "" then
            (releaseIfNotForce force cuid s2, evs, GenResult.ok task_id)
          else
            let newTask : TaskInfo :=
              { cuid := cuid, poll_count := 0, provider := provider_name, restarts := 0 }
            let s3 := { s2 with pendingTasks := ainsert s2.pendingTasks task_id newTask }
            (releaseIfNotForce force cuid s3,
             evs ++ [Event.armPollTimer task_id poll_interval],
             GenResult.ok task_id)
    if force then afterGuards s1
    else
      match s1.pendingTasks.find? (fun p => p.2.cuid == cuid) with
      | some found =>
        (s1, [Event.sentMsg cuid MsgKind.alreadyGeneratingPending],
         GenResult.alreadyGenerating found.1)
      | none =>
        if s1.currentlyGenerating.contains cuid then
          (s1, [Event.sentMsg cuid MsgKind.alreadyGeneratingLock],
           GenResult.alreadyGeneratingLock)
        else
          afterGuards { s1 with currentlyGenerating := cuid :: s1.currentlyGenerating }

/-- The outcome of one provider status check, as classified by
comet_check_task / foxaihub_check_task: ok-and-ready with a track list,
ok-but-pending with a status string, or not-ok with an error string.  The
source's error dicts carry no "status" key, so the poll-side test on
status_res.get("status") is always against the empty string for errors. -/
inductive CheckResult where
  | ready (tracks : List Track)
  | pending (status : String)
  | error (err : String)
deriving DecidableEq, Repr

def comet_complete_states : List String :=
  ["success", "succeeded", "complete", "completed", "done", "ok"]

def comet_pending_states : List String :=
  ["in_progress", "running", "processing", "pending", "queued", "working", "generating", "not_start"]

/-- The status-classification core of main.py comet_check_task (lines
1143-1269), given the extracted root status string and the clip list. -/
def comet_classify (status_raw : String) (tracks_info : List Track) : CheckResult :=
  let status_lower := pyStrip (pyLower status_raw)
  let ready0 := comet_complete_states.contains status_lower
      && tracks_info.any (fun t => t.hasAudio)
  let ready := ready0
      || tracks_info.any (fun t =>
           let stl := pyStrip (pyLower t.status)
           t.hasAudio && (comet_complete_states.contains stl || stl == ""))
  if ready && !tracks_info.isEmpty then
    CheckResult.ready tracks_info
  else if comet_pending_states.contains status_lower
      || (status_lower == "" && tracks_info.isEmpty) then
    CheckResult.pending (if status_lower == "" then "pending" else status_lower)
  else if !(status_lower == "") && !comet_complete_states.contains status_lower
      && !comet_pending_states.contains status_lower then
    if containsSub status_lower "fail" || containsSub status_lower "error" then
      CheckResult.error (String.append "failed_status_" status_raw)
    else
      CheckResult.pending (if status_lower == "" then "pending" else status_lower)
  else
    CheckResult.error (String.append "unknown_status_"
      (if status_raw == "" then "none" else status_raw))

def fox_pending_states : List String :=
  ["pending", "queued", "processing", "running", "working", "generating"]

def fox_complete_states : List String :=
  ["completed", "complete", "done", "success", "ok"]

/-- Outcome of the second (single-style) fetch in foxaihub_check_task's
completed-with-no-links branch: the tracks extracted from a 200 response
(empty when the response had none or was not parseable), or a timeout or
transport exception. -/
inductive FoxSecond where
  | httpTracks (tracks : List Track)
  | timeoutErr
  | exceptionErr
deriving DecidableEq, Repr

/-- The status-classification core of main.py foxaihub_check_task (lines
957-1008), given the item status, the extracted tracks, and the oracle for the
second fetch. -/
def foxaihub_classify (status_raw : String) (tracks : List Track)
    (second : FoxSecond) : CheckResult :=
  let status := pyStrip (pyLower status_raw)
  if !tracks.isEmpty then
    CheckResult.ready tracks
  else if fox_pending_states.contains status then
    CheckResult.pending status
  else if fox_complete_states.contains status then
    match second with
    | FoxSecond.timeoutErr => CheckResult.error "timeout"
    | FoxSecond.exceptionErr => CheckResult.error "check_exception"
    | FoxSecond.httpTracks ts =>
      if !ts.isEmpty then CheckResult.ready ts
      else CheckResult.error "completed_but_no_audio_urls"
  else
    CheckResult.error (String.append "unknown_status_"
      (if status == "" then "none" else status))

/-- USER_STATE.setdefault(cuid, {}).setdefault("_autorest", 0) followed by the
increment: inserts a fresh empty session when absent. -/
def bumpAutorest (us : List (String × Session)) (cuid : String) : List (String × Session) :=
  let st := (alookup us cuid).getD ({} : Session)
  ainsert us cuid { st with autorest := st.autorest + 1 }

/-- main.py _poll_task_and_notify (lines 1324-1451).  check is the result of
the provider status call; submitRes is the submission oracle passed to
start_music_generation on the restart paths; now is time.time() at this tick.
The third component is true when the call raises (the TypeError of the
delayed-scheduling call, which omits the required callback argument of
schedule_delayed_send), in which case the state reached at the raise point is
returned and no further line of the function runs. -/
def pollTaskAndNotify (useComet : Bool) (now : Int) (check : CheckResult)
    (submitRes : Option String) (task_id : String) (s : AppState) :
    AppState × List Event × Bool :=
  match alookup s.pendingTasks task_id with
  | none => (s, [], false)
  | some ti =>
    let cuid := ti.cuid
    let poll_count := ti.poll_count
    let provider := ti.provider
    let restarts := ti.restarts
    let max_polls := if provider == "foxai" then FOXAI_MAX_POLLS else COMET_MAX_POLLS
    let interval := if provider == "foxai" then FOXAI_POLL_INTERVAL_SEC else COMET_POLL_INTERVAL_SEC
    if poll_count ≥ max_polls then
      if restarts < 2 then
        let s2 := { s with pendingTasks := aerase s.pendingTasks task_id }
        let s3 := { s2 with userState := bumpAutorest s2.userState cuid }
        let r := start_music_generation useComet submitRes cuid true s3
        (r.1, Event.sentMsg cuid MsgKind.restartPollExhausted :: r.2.1, false)
      else
        ({ s with pendingTasks := aerase s.pendingTasks task_id },
         [Event.sentMsg cuid MsgKind.abandonPollExhausted], false)
    else
      match check with
      | CheckResult.ready tracks =>
        if !tracks.isEmpty then
          let st := (alookup s.userState cuid).getD ({} : Session)
          let delay := st.autoping_delay_sec.getD 0
          if delay ≤ 0 then
            ({ s with pendingTasks := aerase s.pendingTasks task_id },
             [Event.sentTracks cuid provider task_id tracks], false)
          else
            let last_activity := st.last_activity_ts.getD now
            let send_at_ts := last_activity + delay
            if send_at_ts ≤ now then
              ({ s with pendingTasks := aerase s.pendingTasks task_id },
               [Event.sentTracks cuid provider task_id tracks], false)
            else
              (s, [], true)
        else
          ({ s with pendingTasks := aerase s.pendingTasks task_id },
           [Event.sentMsg cuid MsgKind.emptyTracks], false)
      | CheckResult.pending _ =>
        ({ s with pendingTasks :=
            ainsert s.pendingTasks task_id { ti with poll_count := poll_count + 1 } },
         [Event.armPollTimer task_id interval], false)
      | CheckResult.error err =>
        if err == "timeout" || err == "check_exception" then
          ({ s with pendingTasks :=
              ainsert s.pendingTasks task_id { ti with poll_count := poll_count + 1 } },
           [Event.armPollTimer task_id interval], false)
        else if pyStartsWith err "unknown_status_failed" || pyStartsWith err "failed" then
          if restarts < 2 then
            let s2 := { s with pendingTasks := aerase s.pendingTasks task_id }
            let s3 := { s2 with userState := bumpAutorest s2.userState cuid }
            let r := start_music_generation useComet submitRes cuid true s3
            (r.1, Event.sentMsg cuid MsgKind.restartProviderFailed :: r.2.1, false)
          else
            ({ s with pendingTasks := aerase s.pendingTasks task_id },
             [Event.sentMsg cuid MsgKind.abandonProviderFailed], false)
        else
          ({ s with pendingTasks := aerase s.pendingTasks task_id },
           [Event.sentMsg cuid MsgKind.genericFailure], false)

-- =========================================================
-- Delayed scheduling (scheduler.py schedule_delayed_send) and admin route
-- =========================================================

/-- scheduler.py schedule_delayed_send: with no tracks it is a no-op; with a
past or unset timestamp the tracks are sent immediately and nothing is
persisted; otherwise the entry is written under the lock through
scheduler.py's DELAYED_TRACKS name (scheduler.py:138) — a write that is
visible through the store module's global exactly when the two names still
reference the same object — and save_delayed_tracks then serializes the STORE
module's global (store.py:45), not the alias just mutated, before a one-shot
timer is armed for the remaining delay. -/
def schedule_delayed_send (now : Int) (cuid provider task_id : String)
    (tracks : List Track) (send_at_ts : Int) (s : AppState) : AppState × List Event :=
  if tracks.isEmpty then (s, [])
  else if send_at_ts == 0 || decide (send_at_ts ≤ now) then
    (s, [Event.sentTracks cuid provider task_id tracks])
  else
    let sched2 := ainsert s.delayed.sched task_id
      { cuid := cuid, provider := provider, tracks := tracks, send_at_ts := send_at_ts }
    let store2 := if s.delayed.aliased then sched2 else s.delayed.store
    let d2 : DelayedDicts := { sched := sched2, store := store2, aliased := s.delayed.aliased }
    ({ s with delayed := d2, storeFile := save_delayed_tracks store2 },
     [Event.armDelayedTimer task_id (max 0 (send_at_ts - now))])

/-- main.py admin_force_send_ready (lines 2226-2254): iterates the module-level
DELAYED_TRACKS dict of main.py (not the store module's), pops matching entries,
then calls the undefined name _save_delayed_tracks and raises NameError inside
the critical section, before the send loop runs.  The pops on main's dict
survive; nothing is sent and the store module's map and file are untouched. -/
def admin_force_send_ready (target_cuid : String) (s : AppState) :
    AppState × List Event × Bool :=
  let s2 := { s with mainDelayed := s.mainDelayed.filter (fun p => !(p.2.cuid == target_cuid)) }
  (s2, [], true)

/-- The new-story classification of main.py _process_incoming_payload (lines
1971-1974): a nonempty story text is a new story when the user has no
(nonempty) session or the stripped story differs from the stripped stored
story.  user_state none models (cuid not in USER_STATE or empty session dict). -/
def incoming_new_story_flag (story_text : String) (user_state : Option Session) : Bool :=
  if story_text == "" then false
  else
    match user_state with
    | none => true
    | some st => !(pyStrip story_text == pyStrip st.story)


-- =========================================================
-- Concrete scenario states used by the closed trace theorems
-- =========================================================

/-- A user with a stored lyrics pack and one registered comet task t0. -/
def c1state0 : AppState :=
  { userState := [("u", { lyrics := "la", provider := "comet" })],
    pendingTasks := [("t0", ⟨"u", 0, "comet", 0⟩)],
    currentlyGenerating := [], delayed := delayedDictsInit,
    storeFile := FileContent.missing, mainDelayed := [] }

/-- State after the first explicit provider failure triggers a resubmission. -/
def c1s1 : AppState :=
  (pollTaskAndNotify true 0 (CheckResult.error "failed_status_x") (some "t1") "t0" c1state0).1

/-- State after the second explicit provider failure triggers a resubmission. -/
def c1s2 : AppState :=
  (pollTaskAndNotify true 0 (CheckResult.error "failed_status_x") (some "t2") "t1" c1s1).1

/-- A user whose session has a reminder delay of 3600s configured and last
activity at t=1000, with one registered comet task t0. -/
def c5state : AppState :=
  { userState := [("u", { lyrics := "la", provider := "comet", last_activity_ts := some 1000, autoping_delay_sec := some 3600 })],
    pendingTasks := [("t0", ⟨"u", 0, "comet", 0⟩)],
    currentlyGenerating := [], delayed := delayedDictsInit,
    storeFile := FileContent.missing, mainDelayed := [] }

/-- The same user with no reminder delay configured. -/
def c5state0 : AppState :=
  { userState := [("u", { lyrics := "la", provider := "comet", last_activity_ts := some 1000 })],
    pendingTasks := [("t0", ⟨"u", 0, "comet", 0⟩)],
    currentlyGenerating := [], delayed := delayedDictsInit,
    storeFile := FileContent.missing, mainDelayed := [] }

/-- Scheduler-module dict state after a boot that found no delayed_tracks.json:
the loader rebinds the store module's global, splitting it from the scheduler
alias. -/
def c3bootSplit : DelayedDicts :=
  load_delayed_tracks FileContent.missing delayedDictsInit

/-- Process state right after such a boot. -/
def c3state : AppState :=
  { userState := [], pendingTasks := [], currentlyGenerating := [],
    delayed := c3bootSplit, storeFile := FileContent.missing, mainDelayed := [] }

/-- State after scheduling a delayed entry (target time 100, scheduled at
time 10) in that process. -/
def c3s1 : AppState :=
  (schedule_delayed_send 10 "u" "comet" "t" [{}] 100 c3state).1

-- =========================================================
-- Association-list lemmas
-- =========================================================

theorem aerase_cons {α : Type} (a : String) (v : α) (l : List (String × α)) (k : String) :
    aerase ((a, v) :: l) k = if (a == k) then aerase l k else (a, v) :: aerase l k := by
  cases h : (a == k) <;> simp [aerase, List.filter_cons, h]

theorem alookup_cons {α : Type} (a : String) (v : α) (l : List (String × α)) (k : String) :
    alookup ((a, v) :: l) k = if (a == k) then some v else alookup l k := by
  cases h : (a == k) <;> simp [alookup, List.find?, h]

theorem alookup_append {α : Type} (l1 l2 : List (String × α)) (k : String) :
    alookup (l1 ++ l2) k = match alookup l1 k with
      | some v => some v
      | none => alookup l2 k := by
  induction l1 with
  | nil => simp [alookup]
  | cons p rest ih =>
    obtain ⟨a, v⟩ := p
    cases h : (a == k) <;> simp [alookup_cons, h, ih]

theorem alookup_aerase {α : Type} (l : List (String × α)) (k1 k : String) :
    alookup (aerase l k1) k = if (k1 == k) then none else alookup l k := by
  induction l with
  | nil => cases h : (k1 == k) <;> simp [aerase, alookup, h]
  | cons p rest ih =>
    obtain ⟨a, v⟩ := p
    cases h1 : (a == k1)
    · cases h2 : (a == k) <;> cases h3 : (k1 == k) <;>
        simp_all [aerase_cons, alookup_cons]
    · have ha : a = k1 := by simpa [beq_iff_eq] using h1
      subst ha
      cases h3 : (a == k)
      · simp_all [aerase_cons, alookup_cons]
      · have hk : a = k := by simpa [beq_iff_eq] using h3
        subst hk
        simp_all [aerase_cons, alookup_cons]

theorem alookup_aerase_self {α : Type} (l : List (String × α)) (k : String) :
    alookup (aerase l k) k = none := by
  simp [alookup_aerase]

theorem alookup_aerase_ne {α : Type} (l : List (String × α)) (k1 k : String) (h : k1 ≠ k) :
    alookup (aerase l k1) k = alookup l k := by
  simp [alookup_aerase, h]

theorem alookup_ainsert_self {α : Type} (l : List (String × α)) (k : String) (v : α) :
    alookup (ainsert l k v) k = some v := by
  simp [ainsert, alookup_append, alookup_aerase_self, alookup_cons]

theorem alookup_ainsert_ne {α : Type} (l : List (String × α)) (k1 k : String) (v : α)
    (h : k1 ≠ k) : alookup (ainsert l k1 v) k = alookup l k := by
  have hb : (k1 == k) = false := by simpa [beq_eq_false_iff_ne] using h
  have h1 : alookup (aerase l k1) k = alookup l k := alookup_aerase_ne l k1 k h
  have h2 : alookup ((k1, v) :: ([] : List (String × α))) k = none := by
    simp [alookup_cons, hb, alookup]
  rw [ainsert, alookup_append, h1]
  cases hl : alookup l k <;> simp [h2]

theorem countKey_nil {α : Type} (k : String) : countKey ([] : List (String × α)) k = 0 := rfl

theorem countKey_cons {α : Type} (a : String) (v : α) (l : List (String × α)) (k : String) :
    countKey ((a, v) :: l) k =
      (if (a == k) then 1 else 0) + countKey l k := by
  cases h : (a == k) <;> simp [countKey, List.filter_cons, h] <;> omega

theorem countKey_eq_zero {α : Type} (l : List (String × α)) (k : String)
    (h : k ∉ l.map Prod.fst) : countKey l k = 0 := by
  induction l with
  | nil => rfl
  | cons p rest ih =>
    obtain ⟨a, v⟩ := p
    simp only [List.map_cons, List.mem_cons] at h
    push_neg at h
    have hb : (a == k) = false := by
      simpa [beq_eq_false_iff_ne] using (fun he => h.1 he.symm)
    simp [countKey_cons, hb, ih h.2]

theorem countKey_filter {α : Type} (l : List (String × α)) (pred : String × α → Bool)
    (k : String) (e : α) (hnd : (l.map Prod.fst).Nodup) (hmem : (k, e) ∈ l) :
    countKey (l.filter pred) k = if pred (k, e) then 1 else 0 := by
  induction l with
  | nil => simp at hmem
  | cons p rest ih =>
    obtain ⟨a, v⟩ := p
    simp only [List.map_cons, List.nodup_cons] at hnd
    rcases List.mem_cons.1 hmem with hh | ht
    · have ha : a = k := congrArg Prod.fst hh.symm
      have hv : v = e := congrArg Prod.snd hh.symm
      subst ha; subst hv
      have hknot : a ∉ rest.map Prod.fst := hnd.1
      have hz : countKey (rest.filter pred) a = 0 := by
        apply countKey_eq_zero
        intro hc
        exact hknot (by
          rcases List.mem_map.1 hc with ⟨q, hq, hq2⟩
          exact List.mem_map.2 ⟨q, (List.mem_filter.1 hq).1, hq2⟩)
      cases hp : pred (a, v) <;> simp [List.filter_cons, hp, countKey_cons, hz]
    · have ha : a ≠ k := by
        intro he
        subst he
        exact hnd.1 (List.mem_map.2 ⟨(a, e), ht, rfl⟩)
      have hb : (a == k) = false := by simpa [beq_eq_false_iff_ne] using ha
      cases hp : pred (a, v) <;>
        simp [List.filter_cons, hp, countKey_cons, hb, ih hnd.2 ht]

-- =========================================================
-- Boot-recovery characterization
-- =========================================================

theorem restore_go_delivered (now : Int) (items : List (String × DelayedEntry))
    (st : Store) (f : FileContent) :
    (restore_go now items st f).delivered =
      items.filter (fun p => entryValid p.2 && entryPast now p.2) := by
  induction items generalizing st f with
  | nil => rfl
  | cons p rest ih =>
    obtain ⟨tid, e⟩ := p
    cases hv : entryValid e
    · simp [restore_go, hv, List.filter_cons, ih]
    · cases hp : entryPast now e <;> simp [restore_go, hv, hp, List.filter_cons, ih]

theorem restore_go_timers (now : Int) (items : List (String × DelayedEntry))
    (st : Store) (f : FileContent) :
    (restore_go now items st f).timers =
      (items.filter (bootKept now)).map (fun p => (p.1, max 0 (p.2.send_at_ts - now))) := by
  induction items generalizing st f with
  | nil => rfl
  | cons p rest ih =>
    obtain ⟨tid, e⟩ := p
    cases hv : entryValid e
    · simp [restore_go, bootKept, hv, List.filter_cons, ih]
    · cases hp : entryPast now e <;>
        simp [restore_go, bootKept, hv, hp, List.filter_cons, ih]

theorem restore_go_dropped (now : Int) (items : List (String × DelayedEntry))
    (st : Store) (f : FileContent) :
    (restore_go now items st f).dropped =
      (items.filter (fun p => !entryValid p.2)).map Prod.fst := by
  induction items generalizing st f with
  | nil => rfl
  | cons p rest ih =>
    obtain ⟨tid, e⟩ := p
    cases hv : entryValid e
    · simp [restore_go, hv, List.filter_cons, ih]
    · cases hp : entryPast now e <;> simp [restore_go, hv, hp, List.filter_cons, ih]

theorem restore_go_store (now : Int) (items : List (String × DelayedEntry))
    (st : Store) (f : FileContent) :
    (restore_go now items st f).store =
      items.foldl (fun acc p => if bootKept now p then acc else aerase acc p.1) st := by
  induction items generalizing st f with
  | nil => rfl
  | cons p rest ih =>
    obtain ⟨tid, e⟩ := p
    cases hv : entryValid e
    · simp [restore_go, bootKept, hv, List.foldl_cons, ih]
    · cases hp : entryPast now e <;>
        simp [restore_go, bootKept, hv, hp, List.foldl_cons, ih]

theorem foldl_erase_all_kept (now : Int) (items : List (String × DelayedEntry)) (st : Store)
    (h : items.all (bootKept now)) :
    items.foldl (fun acc p => if bootKept now p then acc else aerase acc p.1) st = st := by
  induction items generalizing st with
  | nil => rfl
  | cons p rest ih =>
    simp only [List.all_cons, Bool.and_eq_true] at h
    simp [List.foldl_cons, h.1, ih _ h.2]

theorem restore_go_file (now : Int) (items : List (String × DelayedEntry))
    (st : Store) (f : FileContent) :
    (restore_go now items st f).file =
      if items.all (bootKept now) then f
      else save_delayed_tracks (restore_go now items st f).store := by
  induction items generalizing st f with
  | nil => simp [restore_go]
  | cons p rest ih =>
    obtain ⟨tid, e⟩ := p
    have hstep : ∀ st2 : Store,
        (restore_go now rest st2 (save_delayed_tracks st2)).file =
          save_delayed_tracks (restore_go now rest st2 (save_delayed_tracks st2)).store := by
      intro st2
      by_cases hall : rest.all (bootKept now)
      · rw [ih, if_pos hall, restore_go_store, foldl_erase_all_kept now rest st2 hall]
      · rw [ih, if_neg hall]
    cases hv : entryValid e
    · have hka : (((tid, e) :: rest).all (bootKept now)) = false := by
        simp [List.all_cons, bootKept, hv]
      simp only [restore_go, hv, Bool.not_false, if_true, hka, Bool.false_eq_true, if_false]
      exact hstep (aerase st tid)
    · cases hp : entryPast now e
      · have hka : (((tid, e) :: rest).all (bootKept now)) = rest.all (bootKept now) := by
          simp [List.all_cons, bootKept, hv, hp]
        simp only [restore_go, hv, hp, Bool.not_true, Bool.false_eq_true, if_false, hka]
        exact ih st f
      · have hka : (((tid, e) :: rest).all (bootKept now)) = false := by
          simp [List.all_cons, bootKept, hv, hp]
        simp only [restore_go, hv, hp, Bool.not_true, Bool.false_eq_true, if_false, if_true,
          hka]
        exact hstep (aerase st tid)

theorem foldl_erase_lookup_none (now : Int) (items : List (String × DelayedEntry))
    (st : Store) (k : String) (h : alookup st k = none) :
    alookup (items.foldl (fun acc p => if bootKept now p then acc else aerase acc p.1) st) k
      = none := by
  induction items generalizing st with
  | nil => exact h
  | cons p rest ih =>
    simp only [List.foldl_cons]
    by_cases hk : bootKept now p
    · rw [if_pos hk]; exact ih st h
    · rw [if_neg hk]
      apply ih
      cases hb : (p.1 == k) <;> simp [alookup_aerase, hb, h]

theorem foldl_erase_lookup_removed (now : Int) (items : List (String × DelayedEntry))
    (st : Store) (k : String) (e : DelayedEntry)
    (hmem : (k, e) ∈ items) (hk : bootKept now (k, e) = false) :
    alookup (items.foldl (fun acc p => if bootKept now p then acc else aerase acc p.1) st) k
      = none := by
  induction items generalizing st with
  | nil => simp at hmem
  | cons p rest ih =>
    simp only [List.foldl_cons]
    rcases List.mem_cons.1 hmem with hh | ht
    · subst hh
      rw [if_neg (by simp [hk])]
      exact foldl_erase_lookup_none now rest _ k (alookup_aerase_self _ _)
    · by_cases hbk : bootKept now p
      · rw [if_pos hbk]; exact ih st ht
      · rw [if_neg hbk]; exact ih (aerase st p.1) ht

theorem foldl_erase_lookup_kept (now : Int) (items : List (String × DelayedEntry))
    (st : Store) (k : String)
    (h : ∀ q ∈ items, q.1 = k → bootKept now q = true) :
    alookup (items.foldl (fun acc p => if bootKept now p then acc else aerase acc p.1) st) k
      = alookup st k := by
  induction items generalizing st with
  | nil => rfl
  | cons p rest ih =>
    simp only [List.foldl_cons]
    by_cases hbk : bootKept now p
    · rw [if_pos hbk]
      exact ih st (fun q hq => h q (List.mem_cons_of_mem p hq))
    · rw [if_neg hbk]
      have hne : p.1 ≠ k := by
        intro he
        exact hbk (h p (List.mem_cons_self p rest) he)
      rw [ih (aerase st p.1) (fun q hq => h q (List.mem_cons_of_mem p hq))]
      exact alookup_aerase_ne st p.1 k hne

theorem ainsert_keys_nodup {α : Type} (l : List (String × α)) (k : String) (v : α)
    (h : (l.map Prod.fst).Nodup) : ((ainsert l k v).map Prod.fst).Nodup := by
  have hsub : ((aerase l k).map Prod.fst).Sublist (l.map Prod.fst) :=
    List.Sublist.map Prod.fst (List.filter_sublist l)
  have h1 : ((aerase l k).map Prod.fst).Nodup := h.sublist hsub
  have h2 : k ∉ (aerase l k).map Prod.fst := by
    intro hc
    rcases List.mem_map.1 hc with ⟨q, hq, hq2⟩
    have := (List.mem_filter.1 hq).2
    rw [hq2] at this
    simp at this
  simp only [ainsert, List.map_append, List.map_cons, List.map_nil]
  exact List.Nodup.append h1 (List.nodup_singleton k)
    (by simpa [List.disjoint_singleton] using h2)

theorem mem_keyed_unique {α : Type} (l : List (String × α)) (k : String) (a b : α)
    (hnd : (l.map Prod.fst).Nodup) (ha : (k, a) ∈ l) (hb : (k, b) ∈ l) : a = b := by
  induction l with
  | nil => simp at ha
  | cons p rest ih =>
    simp only [List.map_cons, List.nodup_cons] at hnd
    rcases List.mem_cons.1 ha with h1 | h1 <;> rcases List.mem_cons.1 hb with h2 | h2
    · have he : (k, a) = ((k, b) : String × α) := h1.trans h2.symm
      exact congrArg Prod.snd he
    · exfalso
      apply hnd.1
      rw [h1.symm]
      exact List.mem_map.2 ⟨(k, b), h2, rfl⟩
    · exfalso
      apply hnd.1
      rw [h2.symm]
      exact List.mem_map.2 ⟨(k, a), h1, rfl⟩
    · exact ih hnd.2 h1 h2

-- =========================================================
-- Helper facts for the delayed-store claims
-- =========================================================

theorem self_mem_ainsert {α : Type} (l : List (String × α)) (k : String) (v : α) :
    (k, v) ∈ ainsert l k v := by
  simp [ainsert]

/-- Claim C7: loading the delayed store at boot never raises out of the loader:
a missing file yields an empty store, a corrupt or non-object JSON root is
reset to an empty store without crashing, and a persisted entry missing its
user id, provider, or tracks is dropped during boot recovery, the correction is
persisted, and the remaining entries are still classified exactly as the
delivered/timers characterizations state. -/
theorem claim_C7_loader_tolerance :
    (∀ d : DelayedDicts,
      (load_delayed_tracks FileContent.missing d).store = [] ∧
      (load_delayed_tracks FileContent.corruptJson d).store = [] ∧
      (load_delayed_tracks FileContent.nonDictRoot d).store = []) ∧
    (∀ (st : Store) (f : FileContent) (now : Int) (tid : String) (e : DelayedEntry),
      (st.map Prod.fst).Nodup → (tid, e) ∈ st → entryValid e = false →
      (tid ∈ (restore_delayed_sends_on_boot now st f).dropped ∧
       alookup (restore_delayed_sends_on_boot now st f).store tid = none ∧
       (restore_delayed_sends_on_boot now st f).file =
         save_delayed_tracks (restore_delayed_sends_on_boot now st f).store ∧
       (restore_delayed_sends_on_boot now st f).delivered =
         st.filter (fun p => entryValid p.2 && entryPast now p.2) ∧
       (restore_delayed_sends_on_boot now st f).timers =
         (st.filter (bootKept now)).map (fun p => (p.1, max 0 (p.2.send_at_ts - now))))) := by
  constructor
  · intro d
    exact ⟨rfl, rfl, rfl⟩
  · intro st f now tid e hnd hmem hinv
    have hbk : bootKept now (tid, e) = false := by simp [bootKept, hinv]
    have hall : st.all (bootKept now) = false := by
      by_cases h : st.all (bootKept now)
      · exact absurd (List.all_eq_true.1 h (tid, e) hmem) (by simp [hbk])
      · simpa using h
    refine ⟨?_, ?_, ?_, ?_, ?_⟩
    · rw [restore_delayed_sends_on_boot, restore_go_dropped]
      exact List.mem_map.2 ⟨(tid, e), List.mem_filter.2 ⟨hmem, by simp [hinv]⟩, rfl⟩
    · rw [restore_delayed_sends_on_boot, restore_go_store]
      exact foldl_erase_lookup_removed now st st tid e hmem hbk
    · simp only [restore_delayed_sends_on_boot]
      rw [restore_go_file, if_neg (by simp [hall])]
    · rw [restore_delayed_sends_on_boot, restore_go_delivered]
    · rw [restore_delayed_sends_on_boot, restore_go_timers]

theorem claim_C7_loader_tolerance_witness :
    ((([("t1", ({ cuid := "", provider := "pp", tracks := [{}], send_at_ts := 5 }
        : DelayedEntry))] : Store).map Prod.fst).Nodup ∧
     entryValid ({ cuid := "", provider := "pp", tracks := [{}], send_at_ts := 5 }
        : DelayedEntry) = false) ∧
    ("t1" ∈ (restore_delayed_sends_on_boot 0
        [("t1", { cuid := "", provider := "pp", tracks := [{}], send_at_ts := 5 })]
        FileContent.missing).dropped ∧
     alookup (restore_delayed_sends_on_boot 0
        [("t1", { cuid := "", provider := "pp", tracks := [{}], send_at_ts := 5 })]
        FileContent.missing).store "t1" = none) := by
  have h := claim_C7_loader_tolerance.2
    [("t1", { cuid := "", provider := "pp", tracks := [{}], send_at_ts := 5 })]
    FileContent.missing 0 "t1"
    { cuid := "", provider := "pp", tracks := [{}], send_at_ts := 5 }
    (by decide) (by simp) (by decide)
  exact ⟨⟨by decide, by decide⟩, h.1, h.2.1⟩

/-- Claim C3 (code bug): durability fails after any boot whose delayed-tracks
file was missing or corrupt.  load_delayed_tracks then rebinds the store
module's global (store.py:31, 34, 37), splitting it from scheduler.py's
imported alias, so schedule_delayed_send inserts the entry into the stale
alias while save_delayed_tracks serializes the store module's now-distinct
empty dict: the file is written without the entry, and after a kill and
restart boot recovery neither delivers the entry nor arms a timer for it —
it is silently lost, contradicting the claim and the scheduler's own
docstring promise that scheduled tracks survive a service restart.  The last
conjunct shows the contrast: with the alias intact (well-formed dict root at
boot) the same call does persist the entry. -/
theorem claim_C3_durability_lost_after_bad_boot :
    c3bootSplit.aliased = false ∧
    alookup c3s1.delayed.sched "t" = some ⟨"u", "comet", [{}], 100⟩ ∧
    c3s1.storeFile = FileContent.dict [] ∧
    load_delayed_tracks c3s1.storeFile delayedDictsInit =
      { sched := [], store := [], aliased := true } ∧
    restore_delayed_sends_on_boot 40
        (load_delayed_tracks c3s1.storeFile delayedDictsInit).sched c3s1.storeFile =
      { store := [], file := c3s1.storeFile, delivered := [], timers := [], dropped := [] } ∧
    (schedule_delayed_send 10 "u" "comet" "t" [{}] 100
        { c3state with delayed := delayedDictsInit }).1.storeFile =
      FileContent.dict [("t", ⟨"u", "comet", [{}], 100⟩)] := by
  refine ⟨by decide, by decide, by decide, by decide, by decide, by decide⟩

/-- Claim C6: a nonempty incoming story text is classified as a new story
exactly when the user has no (nonempty) session or the incoming story differs
after stripping from the session's stored story; an event whose stripped story
equals the stored stripped story is never classified as a new story. -/
theorem claim_C6_new_story_detection (story_text : String) (sess : Option Session)
    (h : story_text ≠ "") :
    (incoming_new_story_flag story_text sess = true ↔
      (sess = none ∨ ∃ st, sess = some st ∧ pyStrip story_text ≠ pyStrip st.story)) ∧
    (∀ st, sess = some st → pyStrip story_text = pyStrip st.story →
      incoming_new_story_flag story_text sess = false) := by
  have hb : (story_text == "") = false := by simpa [beq_eq_false_iff_ne] using h
  constructor
  · cases sess with
    | none => simp [incoming_new_story_flag, hb]
    | some st =>
      simp only [incoming_new_story_flag, hb, Bool.false_eq_true, if_false]
      constructor
      · intro hx
        refine Or.inr ⟨st, rfl, ?_⟩
        intro he
        simp [he] at hx
      · intro hx
        rcases hx with hx | ⟨st2, hst2, hne⟩
        · exact absurd hx (by simp)
        · have : st2 = st := by injection hst2.symm
          subst this
          simpa using hne
  · intro st hse heq
    subst hse
    simp [incoming_new_story_flag, hb, heq]

theorem claim_C6_new_story_detection_witness :
    incoming_new_story_flag "hi" (some { story := "hi " }) = false ∧
    incoming_new_story_flag "hi" (some { story := "bye" }) = true := by
  refine ⟨(claim_C6_new_story_detection "hi" (some { story := "hi " }) (by decide)).2
      { story := "hi " } rfl (by decide), ?_⟩
  exact (claim_C6_new_story_detection "hi" (some { story := "bye" }) (by decide)).1.2
    (Or.inr ⟨{ story := "bye" }, rfl, by decide⟩)

/-- Claim C2: a non-forced start_music_generation call for a user with a
session who either already has a GenerationTask registered or is already
marked generating under the guard returns a distinct already-generating
outcome, sends an in-progress notice, emits no submission, and leaves the
task registry (and the guard) unchanged; hence, absent force, a user with a
registered task never gets a second one registered. -/
theorem claim_C2_duplicate_guard (useComet : Bool) (submitRes : Option String)
    (cuid : String) (s : AppState) (st : Session)
    (hst : alookup s.userState cuid = some st)
    (hdup : (s.pendingTasks.find? (fun p => p.2.cuid == cuid)).isSome = true ∨
            s.currentlyGenerating.contains cuid = true) :
    ((start_music_generation useComet submitRes cuid false s).2.2 =
        GenResult.alreadyGeneratingLock ∨
     ∃ tid, (start_music_generation useComet submitRes cuid false s).2.2 =
        GenResult.alreadyGenerating tid) ∧
    ((start_music_generation useComet submitRes cuid false s).2.1 =
        [Event.sentMsg cuid MsgKind.alreadyGeneratingPending] ∨
     (start_music_generation useComet submitRes cuid false s).2.1 =
        [Event.sentMsg cuid MsgKind.alreadyGeneratingLock]) ∧
    (start_music_generation useComet submitRes cuid false s).1.pendingTasks =
      s.pendingTasks ∧
    (start_music_generation useComet submitRes cuid false s).1.currentlyGenerating =
      s.currentlyGenerating := by
  by_cases hvp : validProvider st.provider = true
  · cases hf : s.pendingTasks.find? (fun p => p.2.cuid == cuid) with
    | some found =>
      simp [start_music_generation, hst, hvp, if_true, hf]
    | none =>
      have hcg : s.currentlyGenerating.contains cuid = true := by
        rcases hdup with h | h
        · rw [hf] at h; simp at h
        · exact h
      have hmem : cuid ∈ s.currentlyGenerating := by simpa using hcg
      simp [start_music_generation, hst, hvp, if_true, hf, hcg, hmem]
  · have hvp2 : validProvider st.provider = false := by simpa using hvp
    cases hf : s.pendingTasks.find? (fun p => p.2.cuid == cuid) with
    | some found =>
      simp [start_music_generation, hst, hvp2, Bool.false_eq_true, if_false, hf]
    | none =>
      have hcg : s.currentlyGenerating.contains cuid = true := by
        rcases hdup with h | h
        · rw [hf] at h; simp at h
        · exact h
      have hmem : cuid ∈ s.currentlyGenerating := by simpa using hcg
      simp [start_music_generation, hst, hvp2, Bool.false_eq_true, if_false, hf, hcg, hmem]

theorem claim_C2_duplicate_guard_witness :
    ((start_music_generation true none "u" false
        { userState := [("u", { lyrics := "x", provider := "comet" })],
          pendingTasks := [("t0", ⟨"u", 0, "comet", 0⟩)],
          currentlyGenerating := [], delayed := delayedDictsInit,
          storeFile := FileContent.missing, mainDelayed := [] }).2.2 =
        GenResult.alreadyGeneratingLock ∨
     ∃ tid, (start_music_generation true none "u" false
        { userState := [("u", { lyrics := "x", provider := "comet" })],
          pendingTasks := [("t0", ⟨"u", 0, "comet", 0⟩)],
          currentlyGenerating := [], delayed := delayedDictsInit,
          storeFile := FileContent.missing, mainDelayed := [] }).2.2 =
        GenResult.alreadyGenerating tid) ∧
    (start_music_generation true none "u" false
        { userState := [("u", { lyrics := "x", provider := "comet" })],
          pendingTasks := [("t0", ⟨"u", 0, "comet", 0⟩)],
          currentlyGenerating := [], delayed := delayedDictsInit,
          storeFile := FileContent.missing, mainDelayed := [] }).1.pendingTasks =
      [("t0", ⟨"u", 0, "comet", 0⟩)] := by
  have h := claim_C2_duplicate_guard true none "u"
    { userState := [("u", { lyrics := "x", provider := "comet" })],
      pendingTasks := [("t0", ⟨"u", 0, "comet", 0⟩)],
      currentlyGenerating := [], delayed := delayedDictsInit,
      storeFile := FileContent.missing, mainDelayed := [] }
    { lyrics := "x", provider := "comet" }
    (by decide) (Or.inl (by decide))
  exact ⟨h.1, h.2.2.1⟩

/-- Claim C4: a poll that observes an explicit provider failure status on a
task with restart count below 2 sends the user a restart notice, removes the
task from the registry, and resubmits a brand-new job through the forced path
using exactly the lyrics, style prompt and negative prompt stored in the
session; the emitted events contain no LLM text-generation call and the
concurrency guard is untouched. -/
theorem claim_C4_failure_restart (useComet : Bool) (now : Int) (err : String)
    (task_id tid2 : String) (s : AppState) (ti : TaskInfo) (st : Session)
    (hti : alookup s.pendingTasks task_id = some ti)
    (hpoll : ti.poll_count < 36)
    (hr : ti.restarts < 2)
    (hsoft : (err == "timeout" || err == "check_exception") = false)
    (herr : (pyStartsWith err "unknown_status_failed" || pyStartsWith err "failed") = true)
    (hst : alookup s.userState ti.cuid = some st)
    (hprov : validProvider st.provider = true)
    (hlyr : ¬ pyStrip st.lyrics = "")
    (htid2 : ¬ tid2 = "")
    (hfresh : tid2 ≠ task_id) :
    (pollTaskAndNotify useComet now (CheckResult.error err) (some tid2) task_id s).2.2
        = false ∧
    (pollTaskAndNotify useComet now (CheckResult.error err) (some tid2) task_id s).2.1 =
      [Event.sentMsg ti.cuid MsgKind.restartProviderFailed,
       Event.submitMusic ti.cuid st.provider (pyStrip st.lyrics) (pyStrip st.suno_prompt)
         (pyStrip st.negative)
         (if st.provider == "comet" then some (orDefaultStr st.mv COMET_MODEL_VERSION)
          else none),
       Event.sentMsg ti.cuid MsgKind.waitingMusic,
       Event.armPollTimer tid2
         (if st.provider == "comet" then COMET_POLL_INTERVAL_SEC
          else FOXAI_POLL_INTERVAL_SEC)] ∧
    alookup (pollTaskAndNotify useComet now (CheckResult.error err) (some tid2)
        task_id s).1.pendingTasks task_id = none ∧
    alookup (pollTaskAndNotify useComet now (CheckResult.error err) (some tid2)
        task_id s).1.pendingTasks tid2 =
      some { cuid := ti.cuid, poll_count := 0, provider := st.provider, restarts := 0 } ∧
    (pollTaskAndNotify useComet now (CheckResult.error err) (some tid2)
        task_id s).1.currentlyGenerating = s.currentlyGenerating ∧
    (∀ c, Event.llmGenerate c ∉
      (pollTaskAndNotify useComet now (CheckResult.error err) (some tid2) task_id s).2.1) := by
  have h36 : (if (ti.provider == "foxai") then FOXAI_MAX_POLLS else COMET_MAX_POLLS) = 36 := by
    cases hq : (ti.provider == "foxai") <;> simp [hq, FOXAI_MAX_POLLS, COMET_MAX_POLLS]
  have hnotge : ¬ (ti.poll_count ≥ (if (ti.provider == "foxai") then FOXAI_MAX_POLLS
      else COMET_MAX_POLLS)) := by
    rw [h36]; omega
  have hstA : alookup (bumpAutorest s.userState ti.cuid) ti.cuid =
      some { st with autorest := st.autorest + 1 } := by
    simp [bumpAutorest, hst, alookup_ainsert_self]
  have hlyrb : (pyStrip st.lyrics == "") = false := by
    simpa [beq_eq_false_iff_ne] using hlyr
  have htid2b : (tid2 == "") = false := by
    simpa [beq_eq_false_iff_ne] using htid2
  have hrun : pollTaskAndNotify useComet now (CheckResult.error err) (some tid2) task_id s =
      ({ s with
          pendingTasks := ainsert (aerase s.pendingTasks task_id) tid2
            { cuid := ti.cuid, poll_count := 0, provider := st.provider, restarts := 0 },
          userState := bumpAutorest s.userState ti.cuid },
       [Event.sentMsg ti.cuid MsgKind.restartProviderFailed,
        Event.submitMusic ti.cuid st.provider (pyStrip st.lyrics) (pyStrip st.suno_prompt)
          (pyStrip st.negative)
          (if st.provider == "comet" then some (orDefaultStr st.mv COMET_MODEL_VERSION)
           else none),
        Event.sentMsg ti.cuid MsgKind.waitingMusic,
        Event.armPollTimer tid2
          (if st.provider == "comet" then COMET_POLL_INTERVAL_SEC
           else FOXAI_POLL_INTERVAL_SEC)], false) := by
    simp only [pollTaskAndNotify, hti, hnotge, if_false, hsoft, Bool.false_eq_true, herr,
      if_true, hr, if_pos, start_music_generation, hstA]
    simp [hprov, hlyrb, htid2b, releaseIfNotForce]
  rw [hrun]
  refine ⟨rfl, rfl, ?_, ?_, rfl, ?_⟩
  · rw [alookup_ainsert_ne _ tid2 task_id _ hfresh]
    exact alookup_aerase_self s.pendingTasks task_id
  · exact alookup_ainsert_self _ tid2 _
  · intro c
    simp

theorem claim_C4_failure_restart_witness :
    (pollTaskAndNotify true 0 (CheckResult.error "failed_status_boom") (some "t1") "t0"
        { userState := [("u", { lyrics := "la", suno_prompt := "rock", negative := "bad", provider := "comet" })],
          pendingTasks := [("t0", ⟨"u", 0, "comet", 0⟩)],
          currentlyGenerating := [], delayed := delayedDictsInit,
          storeFile := FileContent.missing, mainDelayed := [] }).2.1 =
      [Event.sentMsg "u" MsgKind.restartProviderFailed,
       Event.submitMusic "u" "comet" (pyStrip "la") (pyStrip "rock") (pyStrip "bad")
         (some (orDefaultStr none COMET_MODEL_VERSION)),
       Event.sentMsg "u" MsgKind.waitingMusic,
       Event.armPollTimer "t1" COMET_POLL_INTERVAL_SEC] ∧
    alookup (pollTaskAndNotify true 0 (CheckResult.error "failed_status_boom") (some "t1") "t0"
        { userState := [("u", { lyrics := "la", suno_prompt := "rock", negative := "bad", provider := "comet" })],
          pendingTasks := [("t0", ⟨"u", 0, "comet", 0⟩)],
          currentlyGenerating := [], delayed := delayedDictsInit,
          storeFile := FileContent.missing, mainDelayed := [] }).1.pendingTasks "t0" = none := by
  have h := claim_C4_failure_restart true 0 "failed_status_boom" "t0" "t1"
    { userState := [("u", { lyrics := "la", suno_prompt := "rock", negative := "bad", provider := "comet" })],
      pendingTasks := [("t0", ⟨"u", 0, "comet", 0⟩)],
      currentlyGenerating := [], delayed := delayedDictsInit,
      storeFile := FileContent.missing, mainDelayed := [] }
    ⟨"u", 0, "comet", 0⟩
    { lyrics := "la", suno_prompt := "rock", negative := "bad", provider := "comet" }
    (by decide) (by decide) (by decide) (by decide) (by decide) (by decide) (by decide)
    (by decide) (by decide) (by decide)
  exact ⟨h.2.1, h.2.2.1⟩

/-- Claim C1 (code bug): the restart budget is not enforced.  Every automatic
resubmission registers the fresh task with restarts = 0 (the increment in the
poll-exhaustion path mutates a dict already popped from the registry, and the
explicit-failure path never carries the count over), so a third consecutive
explicit provider failure still sends a restart notice and submits again
instead of the terminal abandonment message. -/
theorem claim_C1_restart_budget_not_enforced :
    alookup c1s1.pendingTasks "t1" = some ⟨"u", 0, "comet", 0⟩ ∧
    alookup c1s2.pendingTasks "t2" = some ⟨"u", 0, "comet", 0⟩ ∧
    Event.sentMsg "u" MsgKind.restartProviderFailed ∈
      (pollTaskAndNotify true 0 (CheckResult.error "failed_status_x") (some "t3") "t2" c1s2).2.1 ∧
    Event.sentMsg "u" MsgKind.abandonProviderFailed ∉
      (pollTaskAndNotify true 0 (CheckResult.error "failed_status_x") (some "t3") "t2" c1s2).2.1 ∧
    (∃ p, Event.submitMusic "u" "comet" (pyStrip "la") (pyStrip "") (pyStrip "") p ∈
      (pollTaskAndNotify true 0 (CheckResult.error "failed_status_x") (some "t3") "t2" c1s2).2.1) ∧
    alookup (pollTaskAndNotify true 0 (CheckResult.error "failed_status_x") (some "t3") "t2"
      c1s2).1.pendingTasks "t3" = some ⟨"u", 0, "comet", 0⟩ := by
  refine ⟨by decide, by decide, by decide, by decide, ⟨some "chirp-crow", by decide⟩, by decide⟩

/-- Claim C5 (code bug): for a ready task with a nonempty track list the
immediate branches match the spec (delivery happens at once when the delay D
is unset/nonpositive or when T + D has already passed), but the deferred
branch raises a TypeError — the poller's call to schedule_delayed_send omits
the function's required callback argument — so no DelayedDeliveryEntry is
persisted, nothing is sent, and the task is left in the registry. -/
theorem claim_C5_delivery_timing_bug :
    pollTaskAndNotify true 2000 (CheckResult.ready [{}]) none "t0" c5state =
      (c5state, [], true) ∧
    pollTaskAndNotify true 5000 (CheckResult.ready [{}]) none "t0" c5state =
      ({ c5state with pendingTasks := [] },
       [Event.sentTracks "u" "comet" "t0" [{}]], false) ∧
    pollTaskAndNotify true 2000 (CheckResult.ready [{}]) none "t0" c5state0 =
      ({ c5state0 with pendingTasks := [] },
       [Event.sentTracks "u" "comet" "t0" [{}]], false) := by
  refine ⟨by decide, by decide, by decide⟩

/-- Claim C8 counterexample: for the foxai provider an unrecognized status
string with no failure marker is NOT treated as pending — foxaihub_check_task
returns an unknown-status error, and the poller then removes the task and
sends a terminal failure notice instead of continuing to poll. -/
theorem claim_C8_counterexample_foxai_terminal :
    foxaihub_classify "weird" [] FoxSecond.timeoutErr =
      CheckResult.error "unknown_status_weird" ∧
    pollTaskAndNotify true 0 (foxaihub_classify "weird" [] FoxSecond.timeoutErr) none "t0"
        { userState := [], pendingTasks := [("t0", ⟨"u", 0, "foxai", 0⟩)],
          currentlyGenerating := [], delayed := delayedDictsInit,
          storeFile := FileContent.missing, mainDelayed := [] } =
      ({ userState := [], pendingTasks := [], currentlyGenerating := [], delayed := delayedDictsInit,
         storeFile := FileContent.missing, mainDelayed := [] },
       [Event.sentMsg "u" MsgKind.genericFailure], false) := by
  refine ⟨by decide, by decide⟩

theorem max_polls_le_false (ti : TaskInfo) (hpoll : ti.poll_count < 36) :
    ¬ ((if ti.provider = "foxai" then FOXAI_MAX_POLLS else COMET_MAX_POLLS) ≤ ti.poll_count) := by
  by_cases h : ti.provider = "foxai" <;>
    simp [h, FOXAI_MAX_POLLS, COMET_MAX_POLLS] <;> omega

/-- Claim C8 amended: for the comet provider, a status poll returning an
unrecognized status string that contains no failure marker (and no ready
clips) is classified as pending — a warning is logged, the task remains in the
registry with an incremented poll count, and the poll timer is re-armed on the
same schedule, with no failure outcome. -/
theorem claim_C8_amended_comet_unknown_pending (status_raw : String) (useComet : Bool)
    (now : Int) (submitRes : Option String) (task_id : String) (s : AppState) (ti : TaskInfo)
    (hnc : comet_complete_states.contains (pyStrip (pyLower status_raw)) = false)
    (hnp : comet_pending_states.contains (pyStrip (pyLower status_raw)) = false)
    (hne : ¬ pyStrip (pyLower status_raw) = "")
    (hf1 : containsSub (pyStrip (pyLower status_raw)) "fail" = false)
    (hf2 : containsSub (pyStrip (pyLower status_raw)) "error" = false)
    (hti : alookup s.pendingTasks task_id = some ti)
    (hpoll : ti.poll_count < 36) :
    comet_classify status_raw [] = CheckResult.pending (pyStrip (pyLower status_raw)) ∧
    pollTaskAndNotify useComet now (comet_classify status_raw []) submitRes task_id s =
      ({ s with pendingTasks := ainsert s.pendingTasks task_id { ti with poll_count := ti.poll_count + 1 } },
       [Event.armPollTimer task_id
         (if (ti.provider == "foxai") then FOXAI_POLL_INTERVAL_SEC
          else COMET_POLL_INTERVAL_SEC)], false) := by
  have hneb : (pyStrip (pyLower status_raw) == "") = false := by
    simpa [beq_eq_false_iff_ne] using hne
  have hnc2 : pyStrip (pyLower status_raw) ∉ comet_complete_states := by simpa using hnc
  have hnp2 : pyStrip (pyLower status_raw) ∉ comet_pending_states := by simpa using hnp
  have hcls : comet_classify status_raw [] =
      CheckResult.pending (pyStrip (pyLower status_raw)) := by
    simp [comet_classify, hnc, hnp, hnc2, hnp2, hneb, hf1, hf2]
  have h36 : (if (ti.provider == "foxai") then FOXAI_MAX_POLLS else COMET_MAX_POLLS) = 36 := by
    cases hq : (ti.provider == "foxai") <;> simp [hq, FOXAI_MAX_POLLS, COMET_MAX_POLLS]
  have hnotge : ¬ (ti.poll_count ≥ (if (ti.provider == "foxai") then FOXAI_MAX_POLLS
      else COMET_MAX_POLLS)) := by
    rw [h36]; omega
  refine ⟨hcls, ?_⟩
  rw [hcls]
  simp only [pollTaskAndNotify, hti]
  simp [pollTaskAndNotify, hti, hnotge]
  exact fun hc => absurd hc (max_polls_le_false ti hpoll)

theorem claim_C8_amended_comet_unknown_pending_witness :
    comet_classify "WEIRD" [] = CheckResult.pending (pyStrip (pyLower "WEIRD")) ∧
    pollTaskAndNotify true 0 (comet_classify "WEIRD" []) none "t0"
        { userState := [], pendingTasks := [("t0", ⟨"u", 0, "comet", 0⟩)],
          currentlyGenerating := [], delayed := delayedDictsInit,
          storeFile := FileContent.missing, mainDelayed := [] } =
      ({ userState := [],
         pendingTasks := ainsert [("t0", ⟨"u", 0, "comet", 0⟩)] "t0" ⟨"u", 1, "comet", 0⟩,
         currentlyGenerating := [], delayed := delayedDictsInit,
         storeFile := FileContent.missing, mainDelayed := [] },
       [Event.armPollTimer "t0" COMET_POLL_INTERVAL_SEC], false) := by
  have h := claim_C8_amended_comet_unknown_pending "WEIRD" true 0 none "t0"
    { userState := [], pendingTasks := [("t0", ⟨"u", 0, "comet", 0⟩)],
      currentlyGenerating := [], delayed := delayedDictsInit,
      storeFile := FileContent.missing, mainDelayed := [] }
    ⟨"u", 0, "comet", 0⟩
    (by decide) (by decide) (by decide) (by decide) (by decide) (by decide) (by decide)
  exact ⟨h.1, h.2⟩

/-- Claim C9 counterexample: a 5xx-class HTTP response from a status poll is
NOT retried — the poller treats it as neither soft nor an explicit failure
marker, removes the task, and sends a terminal user-visible failure notice on
the first occurrence. -/
theorem claim_C9_counterexample_5xx_terminal :
    pollTaskAndNotify true 0 (CheckResult.error "http_503") none "t0"
        { userState := [], pendingTasks := [("t0", ⟨"u", 0, "comet", 0⟩)],
          currentlyGenerating := [], delayed := delayedDictsInit,
          storeFile := FileContent.missing, mainDelayed := [] } =
      ({ userState := [], pendingTasks := [], currentlyGenerating := [], delayed := delayedDictsInit,
         storeFile := FileContent.missing, mainDelayed := [] },
       [Event.sentMsg "u" MsgKind.genericFailure], false) := by
  decide

/-- Claim C9 amended: a timeout or a transport-level exception during a status
poll is retried on the existing schedule without consuming restart budget and
produces no terminal failure; any other poll error with no explicit failure
marker — 5xx-class HTTP responses included — immediately removes the task and
sends a terminal user-visible failure notice. -/
theorem claim_C9_amended_transient_retry (useComet : Bool) (now : Int) (err : String)
    (submitRes : Option String) (task_id : String) (s : AppState) (ti : TaskInfo)
    (hti : alookup s.pendingTasks task_id = some ti)
    (hpoll : ti.poll_count < 36) :
    ((err = "timeout" ∨ err = "check_exception") →
      pollTaskAndNotify useComet now (CheckResult.error err) submitRes task_id s =
        ({ s with pendingTasks := ainsert s.pendingTasks task_id { ti with poll_count := ti.poll_count + 1 } },
         [Event.armPollTimer task_id
           (if (ti.provider == "foxai") then FOXAI_POLL_INTERVAL_SEC
            else COMET_POLL_INTERVAL_SEC)], false)) ∧
    ((err == "timeout" || err == "check_exception") = false →
     (pyStartsWith err "unknown_status_failed" || pyStartsWith err "failed") = false →
      pollTaskAndNotify useComet now (CheckResult.error err) submitRes task_id s =
        ({ s with pendingTasks := aerase s.pendingTasks task_id },
         [Event.sentMsg ti.cuid MsgKind.genericFailure], false)) := by
  have h36 : (if (ti.provider == "foxai") then FOXAI_MAX_POLLS else COMET_MAX_POLLS) = 36 := by
    cases hq : (ti.provider == "foxai") <;> simp [hq, FOXAI_MAX_POLLS, COMET_MAX_POLLS]
  have hnotge : ¬ (ti.poll_count ≥ (if (ti.provider == "foxai") then FOXAI_MAX_POLLS
      else COMET_MAX_POLLS)) := by
    rw [h36]; omega
  constructor
  · intro hsoft
    have hsb : (err == "timeout" || err == "check_exception") = true := by
      rcases hsoft with h | h <;> simp [h]
    simp [pollTaskAndNotify, hti, hnotge, hsb]
    exact fun hc => absurd hc (max_polls_le_false ti hpoll)
  · intro hsoft hfail
    simp [pollTaskAndNotify, hti, hnotge, hsoft, hfail]
    exact fun hc => absurd hc (max_polls_le_false ti hpoll)

theorem claim_C9_amended_transient_retry_witness :
    pollTaskAndNotify true 0 (CheckResult.error "timeout") none "t0"
        { userState := [], pendingTasks := [("t0", ⟨"u", 0, "comet", 0⟩)],
          currentlyGenerating := [], delayed := delayedDictsInit,
          storeFile := FileContent.missing, mainDelayed := [] } =
      ({ userState := [],
         pendingTasks := ainsert [("t0", ⟨"u", 0, "comet", 0⟩)] "t0" ⟨"u", 1, "comet", 0⟩,
         currentlyGenerating := [], delayed := delayedDictsInit,
         storeFile := FileContent.missing, mainDelayed := [] },
       [Event.armPollTimer "t0" COMET_POLL_INTERVAL_SEC], false) ∧
    pollTaskAndNotify true 0 (CheckResult.error "http_500") none "t0"
        { userState := [], pendingTasks := [("t0", ⟨"u", 0, "comet", 0⟩)],
          currentlyGenerating := [], delayed := delayedDictsInit,
          storeFile := FileContent.missing, mainDelayed := [] } =
      ({ userState := [], pendingTasks := [], currentlyGenerating := [], delayed := delayedDictsInit,
         storeFile := FileContent.missing, mainDelayed := [] },
       [Event.sentMsg "u" MsgKind.genericFailure], false) := by
  have h1 := claim_C9_amended_transient_retry true 0 "timeout" none "t0"
    { userState := [], pendingTasks := [("t0", ⟨"u", 0, "comet", 0⟩)],
      currentlyGenerating := [], delayed := delayedDictsInit,
      storeFile := FileContent.missing, mainDelayed := [] }
    ⟨"u", 0, "comet", 0⟩ (by decide) (by decide)
  have h2 := claim_C9_amended_transient_retry true 0 "http_500" none "t0"
    { userState := [], pendingTasks := [("t0", ⟨"u", 0, "comet", 0⟩)],
      currentlyGenerating := [], delayed := delayedDictsInit,
      storeFile := FileContent.missing, mainDelayed := [] }
    ⟨"u", 0, "comet", 0⟩ (by decide) (by decide)
  exact ⟨h1.1 (Or.inl rfl), h2.2 (by decide) (by decide)⟩

/-- Claim C10: main.py's module-level DELAYED_TRACKS dict (read by the /health
counter and iterated by /admin/force_send_ready) is a distinct object from the
scheduler's persisted delayed store: scheduling a delayed entry never changes
main's dict, and the admin force-send handler — which iterates only main's
dict and raises NameError on the undefined _save_delayed_tracks before its
send loop — delivers nothing and leaves both scheduler-side dicts and the
persisted file untouched, so the scheduled entry is still in the scheduler's
map afterwards; when the boot kept the alias intact the entry also still sits
in the store module's global and in the persisted file. -/
theorem claim_C10_shadowed_delayed_dict (s : AppState) (cuid provider tid target : String)
    (tracks : List Track) (send_at_ts now : Int)
    (ht : tracks.isEmpty = false)
    (hfut : (send_at_ts == 0 || decide (send_at_ts ≤ now)) = false) :
    ((schedule_delayed_send now cuid provider tid tracks send_at_ts s).1.mainDelayed =
       s.mainDelayed) ∧
    (∀ s2 : AppState,
      (admin_force_send_ready target s2).2.1 = [] ∧
      (admin_force_send_ready target s2).2.2 = true ∧
      (admin_force_send_ready target s2).1.delayed = s2.delayed ∧
      (admin_force_send_ready target s2).1.storeFile = s2.storeFile) ∧
    alookup (admin_force_send_ready target
        (schedule_delayed_send now cuid provider tid tracks send_at_ts s).1).1.delayed.sched
        tid = some ⟨cuid, provider, tracks, send_at_ts⟩ ∧
    (s.delayed.aliased = true →
      alookup (admin_force_send_ready target
          (schedule_delayed_send now cuid provider tid tracks send_at_ts s).1).1.delayed.store
          tid = some ⟨cuid, provider, tracks, send_at_ts⟩ ∧
      (admin_force_send_ready target
          (schedule_delayed_send now cuid provider tid tracks send_at_ts s).1).1.storeFile =
        save_delayed_tracks
          (ainsert s.delayed.sched tid ⟨cuid, provider, tracks, send_at_ts⟩)) := by
  have hmain : (schedule_delayed_send now cuid provider tid tracks send_at_ts s).1.mainDelayed
      = s.mainDelayed := by
    simp [schedule_delayed_send, ht, hfut]
  have hsched : (schedule_delayed_send now cuid provider tid tracks send_at_ts s).1.delayed.sched
      = ainsert s.delayed.sched tid ⟨cuid, provider, tracks, send_at_ts⟩ := by
    simp [schedule_delayed_send, ht, hfut]
  have hstore : (schedule_delayed_send now cuid provider tid tracks send_at_ts s).1.delayed.store
      = if s.delayed.aliased
        then ainsert s.delayed.sched tid ⟨cuid, provider, tracks, send_at_ts⟩
        else s.delayed.store := by
    simp [schedule_delayed_send, ht, hfut]
  have hfile : (schedule_delayed_send now cuid provider tid tracks send_at_ts s).1.storeFile
      = save_delayed_tracks
          (if s.delayed.aliased
           then ainsert s.delayed.sched tid ⟨cuid, provider, tracks, send_at_ts⟩
           else s.delayed.store) := by
    simp [schedule_delayed_send, ht, hfut]
  refine ⟨hmain, ?_, ?_, ?_⟩
  · intro s2
    exact ⟨rfl, rfl, rfl, rfl⟩
  · show alookup
        (schedule_delayed_send now cuid provider tid tracks send_at_ts s).1.delayed.sched
        tid = some ⟨cuid, provider, tracks, send_at_ts⟩
    rw [hsched]
    exact alookup_ainsert_self _ tid _
  · intro hal
    constructor
    · show alookup
          (schedule_delayed_send now cuid provider tid tracks send_at_ts s).1.delayed.store
          tid = some ⟨cuid, provider, tracks, send_at_ts⟩
      rw [hstore, hal]
      simp only [if_true]
      exact alookup_ainsert_self _ tid _
    · show (schedule_delayed_send now cuid provider tid tracks send_at_ts s).1.storeFile =
        save_delayed_tracks
          (ainsert s.delayed.sched tid ⟨cuid, provider, tracks, send_at_ts⟩)
      rw [hfile, hal]
      simp only [if_true]

theorem claim_C10_shadowed_delayed_dict_witness :
    ((schedule_delayed_send 0 "u" "comet" "t" [{}] 50
        { userState := [], pendingTasks := [], currentlyGenerating := [],
          delayed := delayedDictsInit, storeFile := FileContent.missing,
          mainDelayed := [] }).1.mainDelayed = []) ∧
    alookup (admin_force_send_ready "u"
        (schedule_delayed_send 0 "u" "comet" "t" [{}] 50
          { userState := [], pendingTasks := [], currentlyGenerating := [],
            delayed := delayedDictsInit, storeFile := FileContent.missing,
            mainDelayed := [] }).1).1.delayed.sched "t" = some ⟨"u", "comet", [{}], 50⟩ ∧
    (admin_force_send_ready "u"
        (schedule_delayed_send 0 "u" "comet" "t" [{}] 50
          { userState := [], pendingTasks := [], currentlyGenerating := [],
            delayed := delayedDictsInit, storeFile := FileContent.missing,
            mainDelayed := [] }).1).1.storeFile =
      save_delayed_tracks (ainsert ([] : Store) "t" ⟨"u", "comet", [{}], 50⟩) := by
  have h := claim_C10_shadowed_delayed_dict
    { userState := [], pendingTasks := [], currentlyGenerating := [],
      delayed := delayedDictsInit, storeFile := FileContent.missing, mainDelayed := [] }
    "u" "comet" "t" "u" [{}] 50 0 (by decide) (by decide)
  exact ⟨h.1, h.2.2.1, (h.2.2.2 (by decide)).2⟩
